import Mathlib

/-!
# Verification of the architecture research customization layer

This file is a shallow embedding, in Lean 4, of the behavioural core of the
`open_deep_research` architecture customization modules:

* `architecture_researcher.py` — the location/year extractor inside
  `architecture_transform_messages_into_research_topic`, the report validator
  `validate_architecture_report_quality`, the post-processor
  `enhance_architecture_report`, and the two graph nodes with their
  try/except structure around the external model call;
* `architecture_config.py` — `ArchitectureResearchConfig.__init__`,
  `create_architecture_config`, `get_validation_criteria`,
  `get_enhanced_research_prompt` and `get_report_template`;
* `architecture_prompts.py` — the three format-string templates, split at
  their placeholders.

Python strings are modelled as `String` / `List Char`; Python `str.lower` as an
ASCII lowercase map; the `re.search` call for the fixed year regex as a direct
leftmost-match scanner; Python `str.format` as `pyFormat` over an explicit part
list, returning `Except` (a missing key is the `KeyError` the real call
raises); the awaited external model call as an `Except`-valued argument.
-/

/-- ASCII lowercasing of one character: the effect of Python `str.lower` on the
ASCII texts handled here (uppercase letters move down by 32, everything else is
unchanged). -/
def asciiLower (c : Char) : Char :=
  if 'A' ≤ c ∧ c ≤ 'Z' then Char.ofNat (c.toNat + 32) else c

/-- `message.content.lower()` (line 47 of `architecture_researcher.py`): the
lowercased character list of a message's text. -/
def msgContentLower (m : String) : List Char :=
  m.toList.map asciiLower

/-- `report_content.lower()` in `validate_architecture_report_quality`. -/
def reportLower (report : String) : List Char :=
  report.toList.map asciiLower

/-- Helper for Python `str.count`: scan left to right; `skip` is the number of
positions still to pass over because they lie inside the previous match. -/
def countSubstrAux (pat : List Char) : Nat → List Char → Nat
  | _, [] => 0
  | k + 1, _ :: rest => countSubstrAux pat k rest
  | 0, c :: rest =>
      if pat.isPrefixOf (c :: rest) then
        1 + countSubstrAux pat (pat.length - 1) rest
      else
        countSubstrAux pat 0 rest

/-- Python `str.count`: number of non-overlapping occurrences of `pat`,
scanning left to right and skipping over each match. -/
def countSubstr (pat : List Char) (s : List Char) : Nat :=
  countSubstrAux pat 0 s

/-- Python substring containment `pat in s`: some split of `s` has `pat` as a
contiguous segment (checked as a prefix at every start position). -/
def hasSubstr (pat : List Char) : List Char → Bool
  | [] => pat.isEmpty
  | c :: rest => pat.isPrefixOf (c :: rest) || hasSubstr pat rest

/-- The ordered keyword table of
`architecture_transform_messages_into_research_topic` (lines 50–62):
keyword → canonical location, in Python dict insertion order. -/
def location_keywords : List (String × String) :=
  [("new york", "New York, USA"),
   ("california", "California, USA"),
   ("london", "London, UK"),
   ("tokyo", "Tokyo, Japan"),
   ("paris", "Paris, France"),
   ("berlin", "Berlin, Germany"),
   ("sydney", "Sydney, Australia"),
   ("toronto", "Toronto, Canada"),
   ("usa", "United States"),
   ("europe", "Europe"),
   ("asia", "Asia")]

/-- The inner keyword loop (lines 64–67): first table entry whose keyword is a
substring of the lowercased content, stopping at the first hit (`break`). -/
def findLocationIn (content : List Char) : Option String :=
  (location_keywords.find? (fun kv => hasSubstr kv.1.toList content)).map
    (fun kv => kv.2)

/-- One attempt of the regex `20(2[4-9]|3[0-5])` at the head of the character
list: four consecutive characters `2`, `0`, then `2` with a digit `4`–`9` or
`3` with a digit `0`–`5`; on success `int(year_match.group())` of the four
matched digits. -/
def matchYearHere : List Char → Option Nat
  | '2' :: '0' :: c :: d :: _ =>
      if c = '2' ∧ '4'.toNat ≤ d.toNat ∧ d.toNat ≤ '9'.toNat then
        some (2020 + (d.toNat - '0'.toNat))
      else if c = '3' ∧ '0'.toNat ≤ d.toNat ∧ d.toNat ≤ '5'.toNat then
        some (2030 + (d.toNat - '0'.toNat))
      else
        none
  | _ => none

/-- `re.search(r'20(2[4-9]|3[0-5])', content)` (line 71): leftmost match of
the year pattern, as the parsed integer. -/
def searchYear : List Char → Option Nat
  | [] => none
  | c :: rest =>
      match matchYearHere (c :: rest) with
      | some n => some n
      | none => searchYear rest

/-- The mutable `location` / `year` pair of the extraction loop. -/
structure Extracted where
  location : Option String
  year : Option Nat
deriving DecidableEq, Repr

/-- One iteration of the outer `for message in messages` loop (lines 46–73):
a found keyword overwrites `location` (inner `break` only), a regex match
overwrites `year`; otherwise the previous values persist. -/
def scanMessage (st : Extracted) (m : String) : Extracted :=
  let content := msgContentLower m
  let st1 :=
    match findLocationIn content with
    | some v => { st with location := some v }
    | none => st
  match searchYear content with
  | some n => { st1 with year := some n }
  | none => st1

/-- The complete extraction loop of
`architecture_transform_messages_into_research_topic`: both fields start as
`None` and every message is scanned in order. -/
def extractLocationYear (messages : List String) : Extracted :=
  messages.foldl scanMessage ⟨none, none⟩

/-- Spec-side characterization (for the amended first-match claims): the value
produced by `f` on the *last* message for which `f` produces one. -/
def lastMatch {α : Type} (f : String → Option α) : List String → Option α
  | [] => none
  | m :: ms =>
      match lastMatch f ms with
      | some v => some v
      | none => f m

/-- Python `x or default` for an optional string (`None` and `""` are falsy). -/
def pyOrStr (x : Option String) (default : String) : String :=
  match x with
  | none => default
  | some s => if s = "" then default else s

/-- Python `x or default` for an optional integer (`None` and `0` are falsy). -/
def pyOrNat (x : Option Nat) (default : Nat) : Nat :=
  match x with
  | none => default
  | some n => if n = 0 then default else n

/-- The `ArchitectureResearchConfig` object of `architecture_config.py` after
`__init__` has run: the three stored attributes. -/
structure ArchitectureResearchConfig where
  location : String
  year : Nat
  industry_focus : String
deriving DecidableEq, Repr

/-- `ArchitectureResearchConfig.__init__` (lines 16–19 of
`architecture_config.py`): each argument is filtered through Python `or`, so
falsy values (`None`, `""`, `0`) are replaced by the defaults. -/
def ArchitectureResearchConfig.init (location : Option String) (year : Option Nat)
    (industry_focus : Option String) : ArchitectureResearchConfig :=
  { location := pyOrStr location "United States",
    year := pyOrNat year 2025,
    industry_focus := pyOrStr industry_focus "Architecture & Construction" }

/-- `create_architecture_config` (lines 185–191): passes its three optional
arguments through to the constructor. -/
def create_architecture_config (location : Option String) (year : Option Nat)
    (industry_focus : Option String) : ArchitectureResearchConfig :=
  ArchitectureResearchConfig.init location year industry_focus

/-- The `content_requirements` sub-dictionary of `get_validation_criteria`. -/
structure ContentRequirements where
  minimum_trends : Nat
  minimum_examples_per_trend : Nat
  minimum_sources : Nat
  required_sections : List String
deriving DecidableEq, Repr

/-- The `quality_indicators` sub-dictionary of `get_validation_criteria`. -/
structure QualityIndicators where
  specific_project_examples : Bool
  cost_information : Bool
  timeline_projections : Bool
  expert_quotes : Bool
  quantitative_data : Bool
  regional_considerations : Bool
deriving DecidableEq, Repr

/-- The `technical_depth` sub-dictionary of `get_validation_criteria`. -/
structure TechnicalDepth where
  material_specifications : Bool
  technology_details : Bool
  implementation_challenges : Bool
  regulatory_considerations : Bool
deriving DecidableEq, Repr

/-- The full dictionary returned by `get_validation_criteria`. -/
structure ValidationCriteria where
  content_requirements : ContentRequirements
  quality_indicators : QualityIndicators
  technical_depth : TechnicalDepth
deriving DecidableEq, Repr

/-- `ArchitectureResearchConfig.get_validation_criteria` (lines 153–182 of
`architecture_config.py`). The method ignores `self`, so it is a constant. -/
def get_validation_criteria : ValidationCriteria :=
  { content_requirements :=
      { minimum_trends := 3,
        minimum_examples_per_trend := 2,
        minimum_sources := 10,
        required_sections :=
          ["Executive Summary",
           "Current Market Landscape",
           "Top Architecture Trends",
           "Implementation Recommendations",
           "Sources"] },
    quality_indicators :=
      { specific_project_examples := true,
        cost_information := true,
        timeline_projections := true,
        expert_quotes := true,
        quantitative_data := true,
        regional_considerations := true },
    technical_depth :=
      { material_specifications := true,
        technology_details := true,
        implementation_challenges := true,
        regulatory_considerations := true } }

/-- The `results` dictionary built by `validate_architecture_report_quality`. -/
structure ValidationResult where
  passes_validation : Bool
  issues : List String
  recommendations : List String
deriving DecidableEq, Repr

/-- The f-string
`f"Report mentions {trend_count} trends, minimum required: {minimum}"`
(line 265 of `architecture_researcher.py`). -/
def trendIssueMsg (trendCount minimum : Nat) : String :=
  s!"Report mentions {trendCount} trends, minimum required: {minimum}"

/-- The f-string `f"Missing required section: {sec}"` (line 271). -/
def missingSectionMsg (sec : String) : String :=
  s!"Missing required section: {sec}"

/-- The `cost_terms` list (line 284). -/
def costTerms : List String :=
  ["cost", "$", "budget", "price", "expensive", "affordable"]

/-- One iteration of the `for section in content_req["required_sections"]`
loop (lines 269–272): a missing section appends an issue and clears the
`passes_validation` flag. -/
def sectionStep (low : List Char) (r : ValidationResult) (sec : String) :
    ValidationResult :=
  if hasSubstr (sec.toList.map asciiLower) low then r
  else { r with issues := r.issues ++ [missingSectionMsg sec],
                passes_validation := false }

/-- `validate_architecture_report_quality` (lines 247–288 of
`architecture_researcher.py`). In the source the second argument is an
`arch_config` used only through `arch_config.get_validation_criteria()`
(a constant); here the criteria dictionary is passed directly. -/
def validate_architecture_report_quality (report_content : String)
    (criteria : ValidationCriteria) : ValidationResult :=
  let low := reportLower report_content
  let results0 : ValidationResult :=
    { passes_validation := true, issues := [], recommendations := [] }
  let content_req := criteria.content_requirements
  let trend_count := countSubstr "trend".toList low
  let results1 :=
    if trend_count < content_req.minimum_trends then
      { results0 with
          issues := results0.issues ++
            [trendIssueMsg trend_count content_req.minimum_trends],
          passes_validation := false }
    else results0
  let results2 := content_req.required_sections.foldl (sectionStep low) results1
  let qi := criteria.quality_indicators
  let results3 :=
    if qi.specific_project_examples &&
        !hasSubstr "project".toList low && !hasSubstr "building".toList low then
      { results2 with
          recommendations := results2.recommendations ++
            ["Consider adding specific project examples"] }
    else results2
  let results4 :=
    if qi.cost_information &&
        !(costTerms.any (fun t => hasSubstr t.toList low)) then
      { results3 with
          recommendations := results3.recommendations ++
            ["Consider adding cost analysis and budget implications"] }
    else results3
  results4

/-- A piece of a Python format string: literal text or a `\x7bname\x7d`
placeholder. -/
inductive FmtPart where
  | lit : String → FmtPart
  | placeholder : String → FmtPart
deriving DecidableEq, Repr

/-- Keyword-argument lookup performed by Python `str.format`. -/
def lookupEnv (env : List (String × String)) (name : String) : Option String :=
  (env.find? (fun kv => kv.1 == name)).map (fun kv => kv.2)

/-- Python `template.format(**env)`: substitute every placeholder; a
placeholder with no supplied value raises `KeyError`, modelled as an
`Except.error`. -/
def pyFormat : List FmtPart → List (String × String) → Except String String
  | [], _ => Except.ok ""
  | FmtPart.lit s :: rest, env =>
      (pyFormat rest env).map (fun t => s ++ t)
  | FmtPart.placeholder name :: rest, env =>
      match lookupEnv env name with
      | some v => (pyFormat rest env).map (fun t => v ++ t)
      | none => Except.error ("KeyError: " ++ name)
/-- Literal chunk 0 of the `architecture_research_topic_prompt` template string. -/
def architecture_research_topic_prompt_lit0 : String :=
  "You will be given a set of messages about an architecture trend report request. \nYour job is to translate these messages into a detailed, architecture-focused research question.\n\nThe messages that have been exchanged so far between yourself and the user are:\n<Messages>\n"

/-- Literal chunk 1 of the `architecture_research_topic_prompt` template string. -/
def architecture_research_topic_prompt_lit1 : String :=
  "\n</Messages>\n\nToday\x27s date is "

/-- Literal chunk 2 of the `architecture_research_topic_prompt` template string. -/
def architecture_research_topic_prompt_lit2 : String :=
  ".\n\nYou will return a single research question optimized for architecture industry research.\n\n**Architecture-Specific Guidelines:**\n\n1. **Industry Focus - Always Include:**\n   - Specify \"sustainable architecture\", \"green building\", \"eco-friendly design\" if sustainability is mentioned\n   - Include building types: residential, commercial, institutional, industrial, mixed-use\n   - Consider construction methods: prefab, modular, traditional, innovative materials\n   - Include design philosophies: biophilic design, minimalism, maximalism, brutalism, etc.\n\n2. **Location Context - Be Specific:**\n   - Include climate considerations (temperate, tropical, arid, cold)\n   - Consider local building codes and regulations\n   - Include regional architectural styles and cultural influences\n   - Factor in local material availability and labor practices\n\n3. **Temporal Scope - Define Clearly:**\n   - Specify if looking at current trends (2024-2025) vs emerging trends (2025-2030)\n   - Include seasonal considerations if relevant\n   - Consider market cycles and economic factors\n\n4. **Technical Aspects - Include:**\n   - Building technologies: smart home systems, energy efficiency, renewable energy integration\n   - Material innovations: new composites, recycled materials, bio-based materials\n   - Construction techniques: 3D printing, AI-assisted design, virtual reality planning\n\n5. **Market Dynamics - Consider:**\n   - Client preferences and demographics\n   - Budget ranges (luxury, mid-market, affordable housing)\n   - Regulatory changes and policy impacts\n   - Real estate market conditions\n\n6. **Sources Priority - Architecture-Specific:**\n   - Professional architecture publications (Architectural Digest, ArchDaily, Dezeen)\n   - Industry organizations (AIA, RIBA, Green Building Council)\n   - Construction industry reports and trade publications\n   - Academic architecture and urban planning journals\n   - Government building and planning department publications\n\n**Example Enhanced Research Questions:**\n\nInstead of: \"What are architecture trends for 2025?\"\nBetter: \"What are the top 5 sustainable residential architecture trends for 2025 in temperate North American climates, focusing on energy-efficient design, innovative materials, and smart home integration that appeal to millennial homebuyers in the $300K-$800K market range?\"\n\nInstead of: \"What\x27s trending in commercial buildings?\"\nBetter: \"What are the most significant post-pandemic commercial office building design trends for 2024-2025, specifically focusing on flexible workspace solutions, indoor air quality improvements, and biophilic design elements that support hybrid work models in major US metropolitan areas?\"\n\nTransform the user\x27s request into a comprehensive, architecture-focused research question that will yield high-quality, specific, and actionable trend insights.\n"

/-- The `architecture_research_topic_prompt` template string of `architecture_prompts.py`, split at its
format placeholders into literal and placeholder parts. -/
def architecture_research_topic_prompt_parts : List FmtPart :=
  [FmtPart.lit architecture_research_topic_prompt_lit0,
   FmtPart.placeholder "messages",
   FmtPart.lit architecture_research_topic_prompt_lit1,
   FmtPart.placeholder "date",
   FmtPart.lit architecture_research_topic_prompt_lit2]

/-- Literal chunk 0 of the `architecture_report_template` template string. -/
def architecture_report_template_lit0 : String :=
  "Based on all the research conducted, create a comprehensive architecture trend report that answers:\n<Research Brief>\n"

/-- Literal chunk 1 of the `architecture_report_template` template string. -/
def architecture_report_template_lit1 : String :=
  "\n</Research Brief>\n\nToday\x27s date is "

/-- Literal chunk 2 of the `architecture_report_template` template string. -/
def architecture_report_template_lit2 : String :=
  ".\n\nHere are the findings from the research:\n<Findings>\n"

/-- Literal chunk 3 of the `architecture_report_template` template string. -/
def architecture_report_template_lit3 : String :=
  "\n</Findings>\n\n**Structure your architecture trend report with these sections:**\n\n# [Report Title] - Architecture Trends Report\n\n## Executive Summary\n- 2-3 sentence overview of key findings\n- Top 3-5 most significant trends identified\n- Timeline and adoption outlook\n\n## 1. Current Market Landscape\n- Industry overview and market size\n- Key drivers influencing architectural decisions\n- Economic and regulatory factors\n\n## 2. Top Architecture Trends\n\n### Trend 1: [Specific Trend Name]\n- **Description:** What is this trend?\n- **Key Features:** Specific design elements, materials, or technologies\n- **Examples:** Real projects demonstrating this trend (with project names and locations)\n- **Benefits:** Why clients/users are adopting this\n- **Implementation:** Practical considerations for architects\n- **Cost Impact:** Budget implications (higher/lower/similar costs)\n- **Timeline:** Current adoption level and growth projection\n\n### Trend 2: [Specific Trend Name]\n[Same structure as above]\n\n### [Continue for 3-5 major trends]\n\n## 3. Regional Variations\n- How trends differ by location/climate\n- Local adaptations and cultural influences\n- Regulatory differences affecting implementation\n\n## 4. Technology & Innovation\n- Emerging technologies impacting design\n- Material innovations and new products\n- Digital tools changing the design process\n\n## 5. Sustainability Focus\n- Environmental considerations driving trends\n- Green building standards and certifications\n- Energy efficiency and renewable energy integration\n\n## 6. Market Outlook & Predictions\n- Which trends are likely to grow\n- Emerging trends to watch for next year\n- Potential challenges and barriers\n\n## 7. Implementation Recommendations\n- **For Architects:** How to incorporate trends into practice\n- **For Clients:** What to expect in terms of costs and timelines\n- **For Developers:** Market positioning and competitive advantages\n\n## Sources\n[All referenced links in format: [Title](URL)]\n\n**Writing Guidelines:**\n- Use specific project examples whenever possible\n- Include quantitative data (percentages, costs, timelines)\n- Reference expert quotes from practicing architects\n- Make recommendations actionable and practical\n- Focus on trends with real market traction, not just concepts\n- Consider both residential and commercial applications\n- Include high-end and affordable market segments\n"

/-- The `architecture_report_template` template string of `architecture_prompts.py`, split at its
format placeholders into literal and placeholder parts. -/
def architecture_report_template_parts : List FmtPart :=
  [FmtPart.lit architecture_report_template_lit0,
   FmtPart.placeholder "research_brief",
   FmtPart.lit architecture_report_template_lit1,
   FmtPart.placeholder "date",
   FmtPart.lit architecture_report_template_lit2,
   FmtPart.placeholder "findings",
   FmtPart.lit architecture_report_template_lit3]

/-- Literal chunk 0 of the `location_based_research_prompt` template string. -/
def location_based_research_prompt_lit0 : String :=
  "When researching architecture trends for "

/-- Literal chunk 1 of the `location_based_research_prompt` template string. -/
def location_based_research_prompt_lit1 : String :=
  ", consider these location-specific factors:\n\n**Climate Considerations:**\n- Local weather patterns and seasonal variations\n- Natural disaster risks (earthquakes, hurricanes, floods)\n- Energy efficiency requirements for the climate\n- Outdoor living space needs and preferences\n\n**Cultural & Regulatory Context:**\n- Local architectural heritage and preferred styles\n- Building codes and zoning regulations specific to the area\n- Historic preservation requirements\n- Accessibility and inclusivity standards\n\n**Market Dynamics:**\n- Local real estate market conditions\n- Typical budget ranges for residential/commercial projects\n- Popular neighborhoods and development areas\n- Demographic preferences (families, young professionals, retirees)\n\n**Material & Labor Considerations:**\n- Locally available building materials\n- Regional construction labor practices\n- Transportation costs for imported materials\n- Local supplier and contractor capabilities\n\n**Economic Factors:**\n- Local cost of living and construction costs\n- Economic growth or decline affecting building activity\n- Government incentives for certain types of construction\n- Tax implications for different building approaches\n\nResearch should prioritize sources and examples specifically relevant to "

/-- Literal chunk 2 of the `location_based_research_prompt` template string. -/
def location_based_research_prompt_lit2 : String :=
  " while also drawing insights from similar climates and markets globally.\n"

/-- The `location_based_research_prompt` template string of `architecture_prompts.py`, split at its
format placeholders into literal and placeholder parts. -/
def location_based_research_prompt_parts : List FmtPart :=
  [FmtPart.lit location_based_research_prompt_lit0,
   FmtPart.placeholder "location",
   FmtPart.lit location_based_research_prompt_lit1,
   FmtPart.placeholder "location",
   FmtPart.lit location_based_research_prompt_lit2]

/-- `ArchitectureResearchConfig.get_report_template` (lines 40–46 of
`architecture_config.py`): format the report template with the three supplied
values. -/
def ArchitectureResearchConfig.get_report_template
    (_cfg : ArchitectureResearchConfig)
    (research_brief findings date : String) : Except String String :=
  pyFormat architecture_report_template_parts
    [("research_brief", research_brief), ("findings", findings), ("date", date)]

/-- `ArchitectureResearchConfig.get_enhanced_research_prompt` (lines 21–34):
format the topic prompt, and when the stored location is truthy and not
`"Global"`, append the formatted location enhancement. In the source the
`messages` list is interpolated through Python `str`; here the rendered text
arrives as the `messagesText` argument. -/
def ArchitectureResearchConfig.get_enhanced_research_prompt
    (cfg : ArchitectureResearchConfig)
    (messagesText date : String) : Except String String :=
  match pyFormat architecture_research_topic_prompt_parts
      [("messages", messagesText), ("date", date)] with
  | Except.error e => Except.error e
  | Except.ok base_prompt =>
      if cfg.location ≠ "" ∧ cfg.location ≠ "Global" then
        match pyFormat location_based_research_prompt_parts
            [("location", cfg.location)] with
        | Except.error e => Except.error e
        | Except.ok location_enhancement =>
            Except.ok (base_prompt ++ "\n\n" ++ location_enhancement)
      else Except.ok base_prompt

/-- Python `repr` of a string, as interpolated into `str` of a dict. -/
def pyReprStr (s : String) : String := "\x27" ++ s ++ "\x27"

/-- Python `str` of a list of strings. -/
def pyStrList (l : List String) : String :=
  "[" ++ String.intercalate ", " (l.map pyReprStr) ++ "]"

/-- Python `str` of the `content_requirements` dictionary, as interpolated by
the f-string in `enhance_architecture_report`. -/
def pyStrContentReq (c : ContentRequirements) : String :=
  "\x7b\x27minimum_trends\x27: " ++ toString c.minimum_trends ++
  ", \x27minimum_examples_per_trend\x27: " ++ toString c.minimum_examples_per_trend ++
  ", \x27minimum_sources\x27: " ++ toString c.minimum_sources ++
  ", \x27required_sections\x27: " ++ pyStrList c.required_sections ++ "\x7d"

/-- `enhance_architecture_report` (lines 162–190 of
`architecture_researcher.py`): prepend the metadata block and append the
disclaimer around the generated report text. -/
def enhance_architecture_report (report_content : String)
    (arch_config : ArchitectureResearchConfig) : String :=
  let disclaimer :=
    "\n---\n**Important Note:** This report provides trend analysis based on current market research. \nImplementation recommendations should be validated with local building codes, climate conditions, \nand budget constraints. Consult with licensed architects and engineers for specific projects.\n---\n"
  let metadata :=
    "\n**Report Generated:** " ++ pyStrContentReq get_validation_criteria.content_requirements ++
    "\n**Focus Area:** " ++ arch_config.industry_focus ++
    "\n**Geographic Scope:** " ++ arch_config.location ++
    "\n**Time Frame:** " ++ toString arch_config.year ++ "\n"
  metadata ++ "\n\n" ++ report_content ++ "\n\n" ++ disclaimer

/-- A message object returned by the model client (only its `content` is
used). -/
structure ModelMessage where
  content : String
deriving DecidableEq, Repr

/-- The slice of `AgentState` read by `architecture_final_report_generation`. -/
structure ReportState where
  architecture_config : Option ArchitectureResearchConfig
  research_findings : List String
  research_topic : Option String
deriving DecidableEq, Repr

/-- The mapping returned by `architecture_final_report_generation`. -/
structure ReportOutput where
  final_report : String
  messages : List ModelMessage
deriving DecidableEq, Repr

/-- `architecture_final_report_generation` (lines 111–160 of
`architecture_researcher.py`). The awaited model call is the `modelCall`
argument; its failure is caught by the `try`/`except` and becomes an
error-string report, while a `KeyError` from the template rendering happens
*before* the `try` block and therefore propagates as `Except.error`. -/
def architecture_final_report_generation (st : ReportState) (date : String)
    (modelCall : String → Except String ModelMessage) :
    Except String ReportOutput :=
  let arch_config :=
    match st.architecture_config with
    | some c => c
    | none => create_architecture_config none none none
  let research_findings :=
    st.research_findings.foldl (fun acc f => acc ++ "\n\n" ++ f ++ "\n\n") ""
  let research_brief := st.research_topic.getD "Architecture trend analysis"
  match arch_config.get_report_template research_brief research_findings date with
  | Except.error e => Except.error e
  | Except.ok final_report_prompt =>
      Except.ok
        (match modelCall final_report_prompt with
         | Except.ok final_report =>
             { final_report :=
                 enhance_architecture_report final_report.content arch_config,
               messages := [final_report] }
         | Except.error e =>
             { final_report :=
                 "Error generating architecture trend report: " ++ e,
               messages := [] })

/-- The mapping returned by
`architecture_transform_messages_into_research_topic` (message objects are
modelled by their text, as in the extraction loop). -/
structure TopicOutput where
  research_topic : String
  messages : List String
  architecture_config : Option ArchitectureResearchConfig
deriving DecidableEq, Repr

/-- `architecture_transform_messages_into_research_topic` (lines 29–109 of
`architecture_researcher.py`). The awaited model call is the `modelCall`
argument; its failure is caught and control falls back to the original
`transform_messages_into_research_topic`, an external function whose result is
the `fallback` argument. A `KeyError` from the prompt rendering happens before
the `try` block and propagates. -/
def architecture_transform_messages_into_research_topic
    (messages : List String) (date : String)
    (modelCall : String → Except String ModelMessage)
    (fallback : TopicOutput) : Except String TopicOutput :=
  let ex := extractLocationYear messages
  let arch_config :=
    create_architecture_config ex.location (some (pyOrNat ex.year 2025))
      (some "Architecture & Construction")
  match arch_config.get_enhanced_research_prompt (pyStrList messages) date with
  | Except.error e => Except.error e
  | Except.ok enhanced_prompt =>
      Except.ok
        (match modelCall enhanced_prompt with
         | Except.ok research_topic =>
             { research_topic := research_topic.content,
               messages := messages ++ [research_topic.content],
               architecture_config := some arch_config }
         | Except.error _ => fallback)

/-! ## Helper lemmas about the extractor -/

/-- The location keyword search of a single message, as used in the loop. -/
def locOf (m : String) : Option String :=
  findLocationIn (msgContentLower m)

/-- The year search of a single message, as used in the loop. -/
def yearOf (m : String) : Option Nat :=
  searchYear (msgContentLower m)

theorem scanMessage_location (st : Extracted) (m : String) :
    (scanMessage st m).location = (locOf m).or st.location := by
  cases hl : findLocationIn (msgContentLower m) <;>
    cases hy : searchYear (msgContentLower m) <;>
      simp [scanMessage, locOf, hl, hy, Option.or]

theorem scanMessage_year (st : Extracted) (m : String) :
    (scanMessage st m).year = (yearOf m).or st.year := by
  cases hl : findLocationIn (msgContentLower m) <;>
    cases hy : searchYear (msgContentLower m) <;>
      simp [scanMessage, yearOf, hl, hy, Option.or]

theorem foldl_scan_location (ms : List String) (st : Extracted) :
    (ms.foldl scanMessage st).location = (lastMatch locOf ms).or st.location := by
  induction ms generalizing st with
  | nil => rfl
  | cons m ms ih =>
      rw [List.foldl_cons, ih, lastMatch]
      cases h : lastMatch locOf ms with
      | some v => rfl
      | none => rw [scanMessage_location]; rfl

theorem foldl_scan_year (ms : List String) (st : Extracted) :
    (ms.foldl scanMessage st).year = (lastMatch yearOf ms).or st.year := by
  induction ms generalizing st with
  | nil => rfl
  | cons m ms ih =>
      rw [List.foldl_cons, ih, lastMatch]
      cases h : lastMatch yearOf ms with
      | some v => rfl
      | none => rw [scanMessage_year]; rfl

theorem extract_location_eq (ms : List String) :
    (extractLocationYear ms).location = lastMatch locOf ms := by
  rw [extractLocationYear, foldl_scan_location]
  cases lastMatch locOf ms <;> rfl

theorem extract_year_eq (ms : List String) :
    (extractLocationYear ms).year = lastMatch yearOf ms := by
  rw [extractLocationYear, foldl_scan_year]
  cases lastMatch yearOf ms <;> rfl

theorem lastMatch_eq_none {α : Type} (f : String → Option α) (ms : List String)
    (h : ∀ m ∈ ms, f m = none) : lastMatch f ms = none := by
  induction ms with
  | nil => rfl
  | cons m ms ih =>
      rw [lastMatch, ih (fun x hx => h x (List.mem_cons_of_mem m hx))]
      exact h m (List.mem_cons_self m ms)

theorem lastMatch_append {α : Type} (f : String → Option α)
    (ms₁ ms₂ : List String) :
    lastMatch f (ms₁ ++ ms₂) = (lastMatch f ms₂).or (lastMatch f ms₁) := by
  induction ms₁ with
  | nil =>
      simp only [List.nil_append, lastMatch]
      cases lastMatch f ms₂ <;> rfl
  | cons m ms ih =>
      rw [List.cons_append, lastMatch, ih, lastMatch]
      cases lastMatch f ms₂ <;> cases lastMatch f ms <;> rfl

theorem lastMatch_ne_none_of_mem {α : Type} (f : String → Option α)
    (ms : List String) (m : String) (hm : m ∈ ms) (hf : f m ≠ none) :
    lastMatch f ms ≠ none := by
  induction ms with
  | nil => cases hm
  | cons m' ms ih =>
      rw [lastMatch]
      rcases List.mem_cons.mp hm with h | h
      · subst h
        cases hl : lastMatch f ms with
        | some v => simp
        | none => simpa using hf
      · cases hl : lastMatch f ms with
        | some v => simp
        | none => exact absurd hl (ih h)

/-! ## The year regex: range soundness and completeness -/

theorem matchYearHere_range {s : List Char} {n : Nat}
    (h : matchYearHere s = some n) : 2024 ≤ n ∧ n ≤ 2035 := by
  rw [matchYearHere.eq_def] at h
  split at h
  · rename_i c d t
    have e0 : '0'.toNat = 48 := rfl
    have e4 : '4'.toNat = 52 := rfl
    have e9 : '9'.toNat = 57 := rfl
    have e5 : '5'.toNat = 53 := rfl
    split_ifs at h with h1 h2
    · obtain ⟨_, hlo, hhi⟩ := h1
      have hn := Option.some.inj h
      omega
    · obtain ⟨_, hlo, hhi⟩ := h2
      have hn := Option.some.inj h
      omega
  · exact Option.noConfusion h

theorem searchYear_range {s : List Char} {n : Nat}
    (h : searchYear s = some n) : 2024 ≤ n ∧ n ≤ 2035 := by
  induction s with
  | nil => simp [searchYear] at h
  | cons c rest ih =>
      unfold searchYear at h
      cases hm : matchYearHere (c :: rest) with
      | some k =>
          rw [hm] at h
          simp only [Option.some.injEq] at h
          subst h
          exact matchYearHere_range hm
      | none =>
          rw [hm] at h
          exact ih h

theorem searchYear_none_matchYearHere {s : List Char}
    (h : searchYear s = none) : ∀ i, matchYearHere (s.drop i) = none := by
  induction s with
  | nil => intro i; rw [List.drop_nil]; rfl
  | cons c rest ih =>
      have h' : matchYearHere (c :: rest) = none ∧ searchYear rest = none := by
        unfold searchYear at h
        cases hm : matchYearHere (c :: rest) with
        | some k => rw [hm] at h; exact Option.noConfusion h
        | none => rw [hm] at h; exact ⟨rfl, h⟩
      intro i
      cases i with
      | zero => simpa using h'.1
      | succ j => rw [List.drop_succ_cons]; exact ih h'.2 j

theorem isPrefixOf_exists : ∀ {l₁ l₂ : List Char},
    l₁.isPrefixOf l₂ = true → ∃ t, l₂ = l₁ ++ t := by
  intro l₁
  induction l₁ with
  | nil => intro l₂ _; exact ⟨l₂, rfl⟩
  | cons a as ih =>
      intro l₂ h
      cases l₂ with
      | nil => simp [List.isPrefixOf] at h
      | cons b bs =>
          simp only [List.isPrefixOf, Bool.and_eq_true, beq_iff_eq] at h
          obtain ⟨rfl, h2⟩ := h
          obtain ⟨t, rfl⟩ := ih h2
          exact ⟨t, rfl⟩

/-- The shape of a decimal digit string that the year regex accepts at a match
position, together with its parsed value. -/
def yearDigitsOk (n : Nat) : List Char → Bool
  | [a, b, c, d] =>
      (a == '2') && (b == '0') &&
      (((c == '2') && decide ('4'.toNat ≤ d.toNat) && decide (d.toNat ≤ '9'.toNat)) ||
       ((c == '3') && decide ('0'.toNat ≤ d.toNat) && decide (d.toNat ≤ '5'.toNat))) &&
      (2000 + 10 * (c.toNat - '0'.toNat) + (d.toNat - '0'.toNat) == n)
  | _ => false

theorem matchYearHere_of_yearDigitsOk {n : Nat} {ds : List Char} (t : List Char)
    (h : yearDigitsOk n ds = true) : matchYearHere (ds ++ t) = some n := by
  match ds with
  | [] => simp [yearDigitsOk] at h
  | [a] => simp [yearDigitsOk] at h
  | [a, b] => simp [yearDigitsOk] at h
  | [a, b, c] => simp [yearDigitsOk] at h
  | a :: b :: c :: d :: e :: rest => simp [yearDigitsOk] at h
  | [a, b, c, d] =>
      simp only [yearDigitsOk, Bool.and_eq_true, Bool.or_eq_true, beq_iff_eq,
        decide_eq_true_eq] at h
      obtain ⟨⟨⟨rfl, rfl⟩, hcd⟩, hv⟩ := h
      have e0 : '0'.toNat = 48 := rfl
      have e2 : '2'.toNat = 50 := rfl
      have e3 : '3'.toNat = 51 := rfl
      rcases hcd with ⟨⟨rfl, hlo⟩, hhi⟩ | ⟨⟨rfl, hlo⟩, hhi⟩
      · show matchYearHere ('2' :: '0' :: '2' :: d :: t) = some n
        simp only [matchYearHere]
        rw [if_pos ⟨trivial, hlo, hhi⟩]
        exact congrArg some (by omega)
      · show matchYearHere ('2' :: '0' :: '3' :: d :: t) = some n
        simp only [matchYearHere]
        rw [if_neg (by simp)]
        rw [if_pos ⟨trivial, hlo, hhi⟩]
        exact congrArg some (by omega)

theorem yearDigitsOk_toString {n : Nat} (h1 : 2024 ≤ n) (h2 : n ≤ 2035) :
    yearDigitsOk n (toString n).toList = true := by
  interval_cases n <;> decide

/-- Modelled from the spec: a message text "contains the 4-digit number `n`"
when the decimal digits of `n` occur contiguously with no adjacent decimal
digit on either side. -/
def isDigitChar (c : Char) : Bool :=
  decide ('0'.toNat ≤ c.toNat) && decide (c.toNat ≤ '9'.toNat)

/-- Whether the character adjacent to a digit run (if any) fails to extend the
run. -/
def notDigitEdge : Option Char → Bool
  | none => true
  | some c => !(isDigitChar c)

/-- Modelled from the spec: the text `s` contains the number `n` written in
decimal as a maximal digit run ("a 4-digit number" when `n` has four
digits). -/
def specContainsNumber (n : Nat) (s : List Char) : Bool :=
  (List.range (s.length + 1)).any (fun i =>
    ((toString n).toList.isPrefixOf (s.drop i)) &&
    notDigitEdge (s.take i).getLast? &&
    notDigitEdge ((s.drop i).drop (toString n).toList.length).head?)

theorem searchYear_of_specContainsNumber {n : Nat} {s : List Char}
    (h24 : 2024 ≤ n) (h35 : n ≤ 2035)
    (h : specContainsNumber n s = true) : searchYear s ≠ none := by
  obtain ⟨i, _, hcond⟩ := List.any_eq_true.mp h
  simp only [Bool.and_eq_true] at hcond
  obtain ⟨⟨hp, _⟩, _⟩ := hcond
  obtain ⟨t, ht⟩ := isPrefixOf_exists hp
  intro hnone
  have hdrop := searchYear_none_matchYearHere hnone i
  rw [ht, matchYearHere_of_yearDigitsOk t (yearDigitsOk_toString h24 h35)]
    at hdrop
  exact Option.noConfusion hdrop

/-! ## Helper lemmas about the validator -/

theorem sectionFold_passes (low : List Char) (secs : List String)
    (r : ValidationResult) :
    (secs.foldl (sectionStep low) r).passes_validation =
      (r.passes_validation &&
        secs.all (fun s => hasSubstr (s.toList.map asciiLower) low)) := by
  induction secs generalizing r with
  | nil => simp
  | cons s ss ih =>
      rw [List.foldl_cons, ih, List.all_cons]
      cases hp : hasSubstr (s.toList.map asciiLower) low
      all_goals simp only [String.toList] at hp
      all_goals simp [sectionStep, String.toList, hp, Bool.and_assoc]

theorem sectionFold_issues (low : List Char) (secs : List String)
    (r : ValidationResult) :
    (secs.foldl (sectionStep low) r).issues =
      r.issues ++
        (secs.filter (fun s => !hasSubstr (s.toList.map asciiLower) low)).map
          missingSectionMsg := by
  induction secs generalizing r with
  | nil => simp
  | cons s ss ih =>
      rw [List.foldl_cons, ih, List.filter_cons]
      cases hp : hasSubstr (s.toList.map asciiLower) low
      all_goals simp only [String.toList] at hp
      all_goals simp [sectionStep, String.toList, hp]

theorem sectionFold_recommendations (low : List Char) (secs : List String)
    (r : ValidationResult) :
    (secs.foldl (sectionStep low) r).recommendations = r.recommendations := by
  induction secs generalizing r with
  | nil => rfl
  | cons s ss ih =>
      rw [List.foldl_cons, ih]
      cases hp : hasSubstr (s.toList.map asciiLower) low
      all_goals simp only [String.toList] at hp
      all_goals simp [sectionStep, String.toList, hp]

theorem validate_passes_eq (r : String) (c : ValidationCriteria) :
    (validate_architecture_report_quality r c).passes_validation =
      ((!decide (countSubstr "trend".toList (reportLower r) <
          c.content_requirements.minimum_trends)) &&
        c.content_requirements.required_sections.all
          (fun s => hasSubstr (s.toList.map asciiLower) (reportLower r))) := by
  simp only [validate_architecture_report_quality]
  split_ifs with h1 h2 h3 <;>
    simp_all [sectionFold_passes, String.toList]

theorem validate_issues_eq (r : String) (c : ValidationCriteria) :
    (validate_architecture_report_quality r c).issues =
      (if countSubstr "trend".toList (reportLower r) <
          c.content_requirements.minimum_trends then
        [trendIssueMsg (countSubstr "trend".toList (reportLower r))
          c.content_requirements.minimum_trends]
      else []) ++
      (c.content_requirements.required_sections.filter
        (fun s => !hasSubstr (s.toList.map asciiLower) (reportLower r))).map
        missingSectionMsg := by
  simp only [validate_architecture_report_quality]
  split_ifs with h1 h2 h3 <;>
    simp_all [sectionFold_issues, String.toList]

theorem validate_recommendations_eq (r : String) (c : ValidationCriteria) :
    (validate_architecture_report_quality r c).recommendations =
      (if c.quality_indicators.specific_project_examples &&
          !hasSubstr "project".toList (reportLower r) &&
          !hasSubstr "building".toList (reportLower r) then
        ["Consider adding specific project examples"]
      else []) ++
      (if c.quality_indicators.cost_information &&
          !(costTerms.any (fun t => hasSubstr t.toList (reportLower r))) then
        ["Consider adding cost analysis and budget implications"]
      else []) := by
  simp only [validate_architecture_report_quality]
  split_ifs with h1 h2 h3 <;>
    simp_all [sectionFold_recommendations, String.toList]

/-! ## Helper lemmas about the prompt renderer and the two graph nodes -/

theorem pyFormat_report_template (b f d : String) :
    pyFormat architecture_report_template_parts
      [("research_brief", b), ("findings", f), ("date", d)] =
    Except.ok (architecture_report_template_lit0 ++ (b ++
      (architecture_report_template_lit1 ++ (d ++
        (architecture_report_template_lit2 ++ (f ++
          (architecture_report_template_lit3 ++ ""))))))) := by
  simp [architecture_report_template_parts, pyFormat, lookupEnv, Except.map]

theorem pyFormat_topic_prompt (m d : String) :
    pyFormat architecture_research_topic_prompt_parts
      [("messages", m), ("date", d)] =
    Except.ok (architecture_research_topic_prompt_lit0 ++ (m ++
      (architecture_research_topic_prompt_lit1 ++ (d ++
        (architecture_research_topic_prompt_lit2 ++ ""))))) := by
  simp [architecture_research_topic_prompt_parts, pyFormat, lookupEnv, Except.map]

theorem pyFormat_location_prompt (l : String) :
    pyFormat location_based_research_prompt_parts [("location", l)] =
    Except.ok (location_based_research_prompt_lit0 ++ (l ++
      (location_based_research_prompt_lit1 ++ (l ++
        (location_based_research_prompt_lit2 ++ ""))))) := by
  simp [location_based_research_prompt_parts, pyFormat, lookupEnv, Except.map]

theorem get_report_template_ok (cfg : ArchitectureResearchConfig)
    (b f d : String) :
    cfg.get_report_template b f d =
    Except.ok (architecture_report_template_lit0 ++ (b ++
      (architecture_report_template_lit1 ++ (d ++
        (architecture_report_template_lit2 ++ (f ++
          (architecture_report_template_lit3 ++ ""))))))) := by
  unfold ArchitectureResearchConfig.get_report_template
  exact pyFormat_report_template b f d

theorem get_enhanced_research_prompt_ok (cfg : ArchitectureResearchConfig)
    (m d : String) :
    ∃ s, cfg.get_enhanced_research_prompt m d = Except.ok s := by
  unfold ArchitectureResearchConfig.get_enhanced_research_prompt
  rw [pyFormat_topic_prompt]
  split_ifs with h
  · rw [pyFormat_location_prompt]
    exact ⟨_, rfl⟩
  · exact ⟨_, rfl⟩

theorem pyFormat_missing_key (parts : List FmtPart)
    (env : List (String × String)) (name : String)
    (hmem : FmtPart.placeholder name ∈ parts)
    (hmiss : lookupEnv env name = none) :
    ∃ e, pyFormat parts env = Except.error e := by
  induction parts with
  | nil => cases hmem
  | cons p rest ih =>
      cases p with
      | lit s =>
          have hmem2 : FmtPart.placeholder name ∈ rest := by
            rcases List.mem_cons.mp hmem with h | h
            · cases h
            · exact h
          obtain ⟨e, he⟩ := ih hmem2
          exact ⟨e, by simp [pyFormat, he, Except.map]⟩
      | placeholder q =>
          by_cases hq : lookupEnv env q = none
          · exact ⟨"KeyError: " ++ q, by simp [pyFormat, hq]⟩
          · have hmem2 : FmtPart.placeholder name ∈ rest := by
              rcases List.mem_cons.mp hmem with h | h
              · injection h with h2
                subst h2
                exact absurd hmiss hq
              · exact h
            obtain ⟨v, hv⟩ := Option.ne_none_iff_exists'.mp hq
            obtain ⟨e, he⟩ := ih hmem2
            exact ⟨e, by simp [pyFormat, hv, he, Except.map]⟩

theorem final_report_model_failure (st : ReportState) (date e : String) :
    architecture_final_report_generation st date (fun _ => Except.error e) =
      Except.ok { final_report := "Error generating architecture trend report: " ++ e,
                  messages := [] } := by
  simp only [architecture_final_report_generation]
  rw [get_report_template_ok]

theorem topic_transform_model_failure (messages : List String)
    (date e : String) (fb : TopicOutput) :
    architecture_transform_messages_into_research_topic messages date
      (fun _ => Except.error e) fb = Except.ok fb := by
  simp only [architecture_transform_messages_into_research_topic]
  obtain ⟨s, hs⟩ := get_enhanced_research_prompt_ok
    (create_architecture_config (extractLocationYear messages).location
      (some (pyOrNat (extractLocationYear messages).year 2025))
      (some "Architecture & Construction"))
    (pyStrList messages) date
  rw [hs]

theorem lastMatch_some_mem {α : Type} {f : String → Option α} {ms : List String}
    {v : α} (h : lastMatch f ms = some v) : ∃ m ∈ ms, f m = some v := by
  induction ms with
  | nil => cases h
  | cons m ms ih =>
      rw [lastMatch] at h
      cases hl : lastMatch f ms with
      | some w =>
          rw [hl] at h
          obtain rfl := Option.some.inj h
          obtain ⟨m2, hm2, hf⟩ := ih hl
          exact ⟨m2, List.mem_cons_of_mem m hm2, hf⟩
      | none =>
          rw [hl] at h
          exact ⟨m, List.mem_cons_self m ms, h⟩

/-! ## The claims -/

/-- C1 (amended): the extractor does **not** stop at the first match; it scans
every message, and each message with a hit overwrites the previous value.  The
returned location is the canonical value of the first keyword (in table order)
of the *last* message containing any table keyword, and the returned year is
the leftmost in-range regex match of the *last* message containing any match
(`lastMatch` returns exactly the value from the last message where the
per-message search succeeds). -/
theorem C1_extractor_last_match (ms : List String) :
    (extractLocationYear ms).location = lastMatch locOf ms ∧
    (extractLocationYear ms).year = lastMatch yearOf ms :=
  ⟨extract_location_eq ms, extract_year_eq ms⟩

/-- C1 (counterexample to the claim as stated): in
`["tokyo 2024", "paris 2030"]` the first message already contains the keyword
`tokyo` and the in-range year `2024`, yet the extractor returns
`Paris, France` / `2030` from the later message — later messages do overwrite
both fields. -/
theorem C1_first_match_refuted :
    hasSubstr "tokyo".toList (msgContentLower "tokyo 2024") = true ∧
    searchYear (msgContentLower "tokyo 2024") = some 2024 ∧
    extractLocationYear ["tokyo 2024", "paris 2030"] =
      { location := some "Paris, France", year := some 2030 } ∧
    extractLocationYear ["tokyo 2024", "paris 2030"] ≠
      { location := some "Tokyo, Japan", year := some 2024 } := by
  refine ⟨by decide, by decide, by decide, by decide⟩

/-- C2 (amended): any extracted year lies in `[2024, 2035]`; if some message
contains an in-range standalone 4-digit number then a year (in range) is
extracted, though with several candidates only the leftmost match of the last
matching message is returned; and when no year is extracted the caller's
`year or 2025` default stores `2025` in the configuration. -/
theorem C2_year_extraction_amended (ms : List String) :
    (∀ n, (extractLocationYear ms).year = some n → 2024 ≤ n ∧ n ≤ 2035) ∧
    ((∃ m ∈ ms, ∃ n, 2024 ≤ n ∧ n ≤ 2035 ∧
        specContainsNumber n (msgContentLower m) = true) →
      (extractLocationYear ms).year ≠ none) ∧
    ((extractLocationYear ms).year = none →
      (create_architecture_config (extractLocationYear ms).location
        (some (pyOrNat (extractLocationYear ms).year 2025))
        (some "Architecture & Construction")).year = 2025) := by
  refine ⟨?_, ?_, ?_⟩
  · intro n h
    rw [extract_year_eq] at h
    obtain ⟨m, _, hf⟩ := lastMatch_some_mem h
    exact searchYear_range hf
  · rintro ⟨m, hm, n, h24, h35, hc⟩
    rw [extract_year_eq]
    exact lastMatch_ne_none_of_mem yearOf ms m hm
      (searchYear_of_specContainsNumber h24 h35 hc)
  · intro h
    rw [h]
    rfl

/-- C2 (counterexample to the claim as stated): the single message
`"2024 2025"` contains the in-range 4-digit number `2025`, but the extractor
returns `2024` (the leftmost match), not `2025` — so "returns that number" is
false when several in-range numbers occur. -/
theorem C2_multi_year_refuted :
    (2024 ≤ 2025 ∧ 2025 ≤ 2035) ∧
    specContainsNumber 2025 (msgContentLower "2024 2025") = true ∧
    (extractLocationYear ["2024 2025"]).year = some 2024 ∧
    some 2024 ≠ (some 2025 : Option Nat) := by decide

/-- Witness for `C2_year_extraction_amended` at the message list `["2025"]`. -/
theorem C2_year_extraction_witness : (extractLocationYear ["2025"]).year ≠ none :=
  (C2_year_extraction_amended ["2025"]).2.1
    ⟨"2025", by decide, 2025, by decide, by decide, by decide⟩

/-- C3 (amended): if some message contains `"tokyo"` (case-insensitively), no
message contains one of the three earlier table keywords (`"new york"`,
`"california"`, `"london"`), **and no later message contains any table
keyword**, then the extractor returns `Tokyo, Japan`.  (Without the last
condition a later message can overwrite the location.) -/
theorem C3_tokyo_amended (pre post : List String) (m : String)
    (h1 : hasSubstr "tokyo".toList (msgContentLower m) = true)
    (h2 : ∀ m2 ∈ pre ++ m :: post, ∀ k ∈ ["new york", "california", "london"],
        hasSubstr k.toList (msgContentLower m2) = false)
    (h3 : ∀ m2 ∈ post, findLocationIn (msgContentLower m2) = none) :
    (extractLocationYear (pre ++ m :: post)).location = some "Tokyo, Japan" := by
  have hm : m ∈ pre ++ m :: post :=
    List.mem_append_right pre (List.mem_cons_self m post)
  have hNY := h2 m hm "new york" (by simp)
  have hCal := h2 m hm "california" (by simp)
  have hLon := h2 m hm "london" (by simp)
  have hfind : findLocationIn (msgContentLower m) = some "Tokyo, Japan" := by
    simp at hNY hCal hLon h1
    simp [findLocationIn, location_keywords, List.find?, hNY, hCal, hLon, h1]
  have hpost : lastMatch locOf post = none :=
    lastMatch_eq_none locOf post (fun x hx => by
      show findLocationIn (msgContentLower x) = none
      exact h3 x hx)
  rw [extract_location_eq, lastMatch_append, lastMatch, hpost]
  show (locOf m).or (lastMatch locOf pre) = some "Tokyo, Japan"
  rw [show locOf m = some "Tokyo, Japan" from hfind]
  rfl

/-- C3 (counterexample to the claim as stated): `["tokyo", "paris"]` contains
`"tokyo"` and no earlier-table keyword, yet the extractor returns
`Paris, France` because a later message contains the (later-table) keyword
`paris`. -/
theorem C3_tokyo_refuted :
    hasSubstr "tokyo".toList (msgContentLower "tokyo") = true ∧
    (["tokyo", "paris"].all (fun m =>
      (["new york", "california", "london"].all (fun k =>
        !hasSubstr k.toList (msgContentLower m))))) = true ∧
    (extractLocationYear ["tokyo", "paris"]).location = some "Paris, France" ∧
    (some "Paris, France" : Option String) ≠ some "Tokyo, Japan" := by decide

/-- Witness for `C3_tokyo_amended` at the one-message list `["tokyo"]`. -/
theorem C3_tokyo_witness :
    (extractLocationYear ["tokyo"]).location = some "Tokyo, Japan" :=
  C3_tokyo_amended [] [] "tokyo" (by decide) (by decide) (by decide)

/-- C4: a report whose case-insensitive `"trend"` count is below the configured
minimum (3 in the default criteria) never passes validation, and the issues
list contains the corresponding trend-count issue string. -/
theorem C4_low_trend_count_fails (r : String)
    (h : countSubstr "trend".toList (reportLower r) <
      get_validation_criteria.content_requirements.minimum_trends) :
    (validate_architecture_report_quality r
        get_validation_criteria).passes_validation = false ∧
    trendIssueMsg (countSubstr "trend".toList (reportLower r))
        get_validation_criteria.content_requirements.minimum_trends ∈
      (validate_architecture_report_quality r get_validation_criteria).issues := by
  constructor
  · rw [validate_passes_eq, decide_eq_true h]
    simp
  · rw [validate_issues_eq, if_pos h]
    simp

/-- Witness for `C4_low_trend_count_fails` at the empty report. -/
theorem C4_low_trend_count_witness :
    (validate_architecture_report_quality ""
        get_validation_criteria).passes_validation = false ∧
    trendIssueMsg 0 3 ∈
      (validate_architecture_report_quality "" get_validation_criteria).issues :=
  C4_low_trend_count_fails "" (by decide)

/-- C5: a report containing every required section name (case-insensitively),
at least the minimum number of `"trend"` occurrences, and at least one
cost-related keyword passes validation with no cost recommendation. -/
theorem C5_complete_report_passes (r : String)
    (hsec : ∀ s ∈ get_validation_criteria.content_requirements.required_sections,
      hasSubstr (s.toList.map asciiLower) (reportLower r) = true)
    (htrend : ¬ countSubstr "trend".toList (reportLower r) <
      get_validation_criteria.content_requirements.minimum_trends)
    (hcost : costTerms.any (fun t => hasSubstr t.toList (reportLower r)) = true) :
    (validate_architecture_report_quality r
        get_validation_criteria).passes_validation = true ∧
    "Consider adding cost analysis and budget implications" ∉
      (validate_architecture_report_quality r
        get_validation_criteria).recommendations := by
  constructor
  · rw [validate_passes_eq, decide_eq_false htrend]
    simp only [Bool.not_false, Bool.true_and]
    exact List.all_eq_true.mpr hsec
  · rw [validate_recommendations_eq, hcost]
    split_ifs <;> simp_all

/-- Witness for `C5_complete_report_passes` at a concrete complete report. -/
theorem C5_complete_report_witness :
    (validate_architecture_report_quality
        "Executive Summary Current Market Landscape Top Architecture Trends Implementation Recommendations Sources trend trend cost"
        get_validation_criteria).passes_validation = true ∧
    "Consider adding cost analysis and budget implications" ∉
      (validate_architecture_report_quality
        "Executive Summary Current Market Landscape Top Architecture Trends Implementation Recommendations Sources trend trend cost"
        get_validation_criteria).recommendations :=
  C5_complete_report_passes _ (by decide) (by decide) (by decide)

/-- C6 (amended): only two of the six enabled quality indicators are actually
checked.  The `passes_validation` flag is exactly the conjunction of the
trend-count check and the required-section checks (so quality indicators never
change it); when `specific_project_examples` is enabled and neither
`"project"` nor `"building"` occurs, a project recommendation is appended; and
when `cost_information` is enabled and no cost term occurs, a cost
recommendation is appended.  The other four enabled indicators
(`timeline_projections`, `expert_quotes`, `quantitative_data`,
`regional_considerations`) have no check at all. -/
theorem C6_quality_indicators_amended (r : String) (c : ValidationCriteria) :
    ((validate_architecture_report_quality r c).passes_validation =
      ((!decide (countSubstr "trend".toList (reportLower r) <
          c.content_requirements.minimum_trends)) &&
        c.content_requirements.required_sections.all
          (fun s => hasSubstr (s.toList.map asciiLower) (reportLower r)))) ∧
    (c.quality_indicators.specific_project_examples = true →
      hasSubstr "project".toList (reportLower r) = false →
      hasSubstr "building".toList (reportLower r) = false →
      "Consider adding specific project examples" ∈
        (validate_architecture_report_quality r c).recommendations) ∧
    (c.quality_indicators.cost_information = true →
      costTerms.any (fun t => hasSubstr t.toList (reportLower r)) = false →
      "Consider adding cost analysis and budget implications" ∈
        (validate_architecture_report_quality r c).recommendations) := by
  refine ⟨validate_passes_eq r c, ?_, ?_⟩
  · intro hq hp hb
    rw [validate_recommendations_eq, hq, hp, hb]
    simp
  · intro hq hc
    rw [validate_recommendations_eq, hq, hc]
    simp

/-- C6 (counterexample to the claim as stated): in the default criteria all
six quality indicators are enabled, yet the empty report — which contains no
keyword of any topical category — receives exactly the two recommendations of
the two implemented checks; no check is applied for the other four enabled
indicators. -/
theorem C6_unchecked_indicators_refuted :
    get_validation_criteria.quality_indicators.timeline_projections = true ∧
    get_validation_criteria.quality_indicators.expert_quotes = true ∧
    get_validation_criteria.quality_indicators.quantitative_data = true ∧
    get_validation_criteria.quality_indicators.regional_considerations = true ∧
    (validate_architecture_report_quality "" get_validation_criteria).recommendations =
      ["Consider adding specific project examples",
       "Consider adding cost analysis and budget implications"] := by decide

/-- Witness for `C6_quality_indicators_amended` at the empty report with the
default criteria. -/
theorem C6_quality_indicators_witness :
    "Consider adding cost analysis and budget implications" ∈
      (validate_architecture_report_quality "" get_validation_criteria).recommendations :=
  (C6_quality_indicators_amended "" get_validation_criteria).2.2
    (by decide) (by decide)

/-- C7: the validator is a total pure function in this embedding, and failures
are recorded exactly as issues: the `passes_validation` flag is `false`
precisely when the issues list is nonempty, for every report text and every
criteria value. -/
theorem C7_failures_recorded_as_issues (r : String) (c : ValidationCriteria) :
    (validate_architecture_report_quality r c).passes_validation = false ↔
      (validate_architecture_report_quality r c).issues ≠ [] := by
  rw [validate_passes_eq, validate_issues_eq]
  by_cases ht : countSubstr "trend".toList (reportLower r) <
      c.content_requirements.minimum_trends
  · rw [decide_eq_true ht, if_pos ht]
    simp
  · rw [decide_eq_false ht, if_neg ht]
    simp only [Bool.not_false, Bool.true_and, List.nil_append, ne_eq,
      List.map_eq_nil_iff, List.filter_eq_nil_iff]
    simp [List.all_eq_false]

/-- C8: a failure of the external model call is caught and never re-raised:
final report generation returns an `Except.ok` value embedding the error
string with an empty message list, and topic transformation returns the
fallback result of the original `transform_messages_into_research_topic`. -/
theorem C8_model_failure_never_raised (st : ReportState) (messages : List String)
    (date e : String) (fb : TopicOutput) :
    architecture_final_report_generation st date (fun _ => Except.error e) =
      Except.ok { final_report := "Error generating architecture trend report: " ++ e,
                  messages := [] } ∧
    architecture_transform_messages_into_research_topic messages date
      (fun _ => Except.error e) fb = Except.ok fb :=
  ⟨final_report_model_failure st date e,
   topic_transform_model_failure messages date e fb⟩

/-- C9: the template renderer raises a `KeyError` (an `Except.error` here,
propagated — the renderers return it to the caller unhandled) whenever a
referenced placeholder has no supplied value, and with all placeholders
supplied it returns the fully substituted text: `get_report_template` produces
exactly the template literals interleaved with the three supplied values, and
`get_enhanced_research_prompt` always renders successfully. -/
theorem C9_template_rendering :
    (∀ (parts : List FmtPart) (env : List (String × String)) (name : String),
      FmtPart.placeholder name ∈ parts → lookupEnv env name = none →
      ∃ e, pyFormat parts env = Except.error e) ∧
    (∀ (cfg : ArchitectureResearchConfig) (b f d : String),
      cfg.get_report_template b f d =
        Except.ok (architecture_report_template_lit0 ++ (b ++
          (architecture_report_template_lit1 ++ (d ++
            (architecture_report_template_lit2 ++ (f ++
              (architecture_report_template_lit3 ++ "")))))))) ∧
    (∀ (cfg : ArchitectureResearchConfig) (m d : String),
      ∃ s, cfg.get_enhanced_research_prompt m d = Except.ok s) :=
  ⟨pyFormat_missing_key, get_report_template_ok, get_enhanced_research_prompt_ok⟩

/-- Witness for `C9_template_rendering`: a one-placeholder template rendered
with an empty environment produces an error. -/
theorem C9_template_rendering_witness :
    ∃ e, pyFormat [FmtPart.placeholder "research_brief"] [] = Except.error e :=
  C9_template_rendering.1 [FmtPart.placeholder "research_brief"] []
    "research_brief" (by decide) (by decide)

/-- C10: the constructor replaces every falsy argument — `None`, the empty
string, or zero — with the defaults, so an explicitly supplied empty-string
location or zero year is never stored. -/
theorem C10_falsy_args_defaulted (l : Option String) (y : Option Nat)
    (i : Option String) :
    ((l = none ∨ l = some "") → (y = none ∨ y = some 0) →
      (i = none ∨ i = some "") →
      create_architecture_config l y i =
        { location := "United States", year := 2025,
          industry_focus := "Architecture & Construction" }) ∧
    (create_architecture_config l y i).location ≠ "" ∧
    (create_architecture_config l y i).year ≠ 0 := by
  refine ⟨?_, ?_, ?_⟩
  · rintro (rfl | rfl) (rfl | rfl) (rfl | rfl) <;> rfl
  · cases l with
    | none =>
        simp [create_architecture_config, ArchitectureResearchConfig.init, pyOrStr]
    | some s =>
        simp only [create_architecture_config, ArchitectureResearchConfig.init,
          pyOrStr]
        split_ifs with hs
        · simp
        · simpa using hs
  · cases y with
    | none =>
        simp [create_architecture_config, ArchitectureResearchConfig.init, pyOrNat]
    | some n =>
        simp only [create_architecture_config, ArchitectureResearchConfig.init,
          pyOrNat]
        split_ifs with hn
        · simp
        · simpa using hn

/-- Witness for `C10_falsy_args_defaulted` at explicitly falsy arguments. -/
theorem C10_falsy_args_witness :
    create_architecture_config (some "") (some 0) (some "") =
      { location := "United States", year := 2025,
        industry_focus := "Architecture & Construction" } :=
  (C10_falsy_args_defaulted (some "") (some 0) (some "")).1
    (Or.inr rfl) (Or.inr rfl) (Or.inr rfl)
